import Mathlib

/-!
# Verification of `src/corsair.cc` (iCUE SDK bridge)

A shallow embedding of the native module: its global state becomes the record `State`,
every exported function becomes a state-passing function, and everything the module
reaches through the operating system or through the vendor library is an explicit
parameter (`Win32`, `Vendor`).  A ghost field `log` records, in time order, the calls
that leave the module, so that "is called", "is called before" and "is never attempted"
can be stated.

Conventions of the embedding

* a nullable pointer is an `Option`; `HMODULE` and the resolved entry points are
  `Option Nat` (`none` is `NULL`);
* the payload pointer `keyEvent` of a `CorsairEvent` is an optional address; the payload
  stays in vendor memory, which is a function from addresses to `CorsairKeyEvent` given
  to `PollEvents` as it stands when the poll runs;
* a JavaScript number argument is an integer; `Uint32Value()` is reduction modulo `2^32`
  and the narrowing to `unsigned char` is reduction modulo `256`;
* `ThrowAsJavaScriptException` followed by `return` is the result `JsResult.threw`;
* the mutex `g_queueMutex` is not modelled: the functions are run one at a time.
-/

namespace Corsair

/-! ## Types of the vendor header -/

/-- Constants of the vendor header `iCUESDK.h`.  The header is not part of the sources and
the code only compares against these names, so they are parameters of the model. -/
structure SdkHeader where
  CE_Success : Int
  CSS_Connected : Int
  CEI_KeyEvent : Int
  CDT_Keyboard : Int
  CAL_ExclusiveLightingControl : Int
  deriving DecidableEq, Repr

/-- Header values of the iCUE SDK 4 release, used for concrete evaluations only. -/
def sdk4 : SdkHeader :=
  { CE_Success := 0, CSS_Connected := 6, CEI_KeyEvent := 2, CDT_Keyboard := 1,
    CAL_ExclusiveLightingControl := 1 }

/-- The fields of `CorsairKeyEvent` that the module reads. -/
structure CorsairKeyEvent where
  keyId : Int
  isPressed : Bool
  deriving DecidableEq, Repr

/-- A `CorsairEvent`: the event kind and the (nullable) pointer to the key payload.  The
payload itself is not part of the struct: it lives in vendor memory at that address. -/
structure CorsairEvent where
  id : Int
  keyEvent : Option Nat
  deriving DecidableEq, Repr

/-- The field of `CorsairSessionStateChanged` that the module reads. -/
structure CorsairSessionStateChanged where
  state : Int
  deriving DecidableEq, Repr

/-- A `CorsairLedColor` as filled in by `SetKeyColor`. -/
structure CorsairLedColor where
  id : Nat
  r : Nat
  g : Nat
  b : Nat
  a : Nat
  deriving DecidableEq, Repr

/-- The fields of `CorsairDeviceInfo` that `GetKeyboards` copies out. -/
structure CorsairDeviceInfo where
  id : String
  model : String
  serial : String
  ledCount : Int
  deriving DecidableEq, Repr

/-! ## Results handed to JavaScript -/

/-- The two JavaScript error classes the module raises. -/
inductive JsErrorKind where
  | Error
  | TypeError
  deriving DecidableEq, Repr

/-- Outcome of an exported function: a value, or a pending JavaScript exception. -/
inductive JsResult (α : Type) where
  | returned (value : α)
  | threw (kind : JsErrorKind) (message : String)
  deriving DecidableEq, Repr

/-- One element of the array built by `PollEvents`. -/
structure PolledEvent where
  keyId : Int
  isPressed : Bool
  deriving DecidableEq, Repr

/-- One element of the array built by `GetKeyboards`. -/
structure DeviceObj where
  id : String
  model : String
  serial : String
  ledCount : Int
  deriving DecidableEq, Repr

/-! ## Calls leaving the module (ghost log) -/

/-- A call from the module to the operating system loader or to a vendor entry point. -/
inductive Call where
  | LoadLibraryA (path : String)
  | FreeLibrary (handle : Nat)
  | CorsairConnect
  | CorsairDisconnect
  | CorsairSubscribeForEvents
  | CorsairUnsubscribeFromEvents
  | CorsairSetLedColors (deviceId : String) (size : Nat) (ledColor : CorsairLedColor)
  | CorsairGetDevices (filter : Int) (sizeMax : Nat)
  | CorsairRequestControl (deviceId : String) (accessLevel : Int)
  deriving DecidableEq, Repr

/-! ## Module state -/

/-- The globals of `corsair.cc` (lines 13-34) and the ghost log. -/
structure State where
  g_iCueModule : Option Nat
  g_eventQueue : List CorsairEvent
  g_subscribed : Bool
  CorsairConnect_Fn : Option Nat
  CorsairDisconnect_Fn : Option Nat
  CorsairSubscribeForEvents_Fn : Option Nat
  CorsairUnsubscribeFromEvents_Fn : Option Nat
  CorsairSetLedColors_Fn : Option Nat
  CorsairGetDevices_Fn : Option Nat
  CorsairRequestControl_Fn : Option Nat
  log : List Call
  deriving DecidableEq, Repr

/-- The state at module load time: the static initialisers of lines 13-34. -/
def State.init : State :=
  { g_iCueModule := none, g_eventQueue := [], g_subscribed := false,
    CorsairConnect_Fn := none, CorsairDisconnect_Fn := none,
    CorsairSubscribeForEvents_Fn := none, CorsairUnsubscribeFromEvents_Fn := none,
    CorsairSetLedColors_Fn := none, CorsairGetDevices_Fn := none,
    CorsairRequestControl_Fn := none, log := [] }

/-- Append one call to the ghost log. -/
def State.record (s : State) (c : Call) : State :=
  { s with log := s.log ++ [c] }

/-! ## Environment -/

/-- The operating system as seen by `LoadSDK`.  `moduleFileName` is the path written by
`GetModuleFileNameA` when both `GetModuleHandleEx` and it succeed (lines 79-81). -/
structure Win32 where
  moduleFileName : Option String
  PathRemoveFileSpecA : String → String
  LoadLibraryA : String → Option Nat
  GetProcAddress : Nat → String → Option Nat

/-- Answers of the vendor library to one call of each entry point.  `CorsairGetDevices`
answers with its return code, the contents of memory at `devices + i` after the call, and
the value it stored in `*size`. -/
structure Vendor where
  CorsairConnect : Int
  CorsairDisconnect : Int
  CorsairSubscribeForEvents : Int
  CorsairUnsubscribeFromEvents : Int
  CorsairSetLedColors : String → Nat → CorsairLedColor → Int
  CorsairGetDevices : Int → Nat → Int × (Nat → CorsairDeviceInfo) × Int
  CorsairRequestControl : String → Int → Int

/-! ## Session state callback and event callback (lines 37-57) -/

/-- The lambda registered with `CorsairSubscribeForEvents` (lines 41-53). -/
def eventCallback (H : SdkHeader) (event : Option CorsairEvent) (s : State) : State :=
  match event with
  | none => s
  | some ev =>
    if ev.id = H.CEI_KeyEvent ∧ ev.keyEvent.isSome then
      { s with g_eventQueue := s.g_eventQueue ++ [ev] }
    else s

/-- The function `SessionStateChangedHandler` (lines 37-57). -/
def SessionStateChangedHandler (H : SdkHeader)
    (eventData : Option CorsairSessionStateChanged) (s : State) : State :=
  match eventData with
  | none => s
  | some d =>
    if d.state = H.CSS_Connected then
      if s.CorsairSubscribeForEvents_Fn.isSome then
        { s.record Call.CorsairSubscribeForEvents with g_subscribed := true }
      else s
    else s

/-! ## `LoadSDK` (lines 60-154) -/

/-- The array `staticPaths` (lines 100-111). -/
def staticPaths : List String :=
  [ "iCUESDK.dll",
    ".\\iCUESDK.dll",
    "build\\Release\\iCUESDK.dll",
    "C:\\Program Files\\Corsair\\SDK\\iCUESDK.dll",
    "C:\\Program Files\\Corsair\\iCUESDK.dll",
    "C:\\Program Files\\Corsair\\Corsair iCUE5 Software\\iCUESDK.dll",
    "C:\\Program Files (x86)\\Corsair\\SDK\\iCUESDK.dll",
    "C:\\Program Files (x86)\\Corsair\\iCUESDK.dll",
    "C:\\Program Files\\Corsair\\CORSAIR iCUE 4\\system\\iCUESDK.dll",
    "C:\\Program Files\\Corsair\\CORSAIR iCUE\\system\\iCUESDK.dll" ]

/-- Lines 79-97: the candidate next to the binding module, when its path is known.
The formatted path is assumed to fit in `MAX_PATH`. -/
def moduleDirPaths (os : Win32) : List String :=
  match os.moduleFileName with
  | none => []
  | some moduleDllPath =>
    let pathStr :=
      if moduleDllPath.take 4 = "\\\\?\\" then moduleDllPath.drop 4 else moduleDllPath
    [os.PathRemoveFileSpecA pathStr ++ "\\iCUESDK.dll"]

/-- The filled part of `searchPaths` after the loop of lines 113-116. -/
def searchPaths (os : Win32) : List String :=
  let first := moduleDirPaths os
  first ++ staticPaths.take (15 - first.length)

/-- Lines 127-133: the seven `GetProcAddress` lookups on the freshly loaded library. -/
def resolveEntryPoints (os : Win32) (h : Nat) (s : State) : State :=
  { s with
    CorsairConnect_Fn := os.GetProcAddress h "CorsairConnect",
    CorsairDisconnect_Fn := os.GetProcAddress h "CorsairDisconnect",
    CorsairSubscribeForEvents_Fn := os.GetProcAddress h "CorsairSubscribeForEvents",
    CorsairUnsubscribeFromEvents_Fn := os.GetProcAddress h "CorsairUnsubscribeFromEvents",
    CorsairSetLedColors_Fn := os.GetProcAddress h "CorsairSetLedColors",
    CorsairGetDevices_Fn := os.GetProcAddress h "CorsairGetDevices",
    CorsairRequestControl_Fn := os.GetProcAddress h "CorsairRequestControl" }

/-- The search loop of lines 120-149 over the remaining candidates; the boolean tells
whether the loop left through the `return` of line 140. -/
def tryPaths (os : Win32) : List String → State → State × Bool
  | [], s => (s, false)
  | path :: rest, s =>
    let s1 := s.record (Call.LoadLibraryA path)
    match os.LoadLibraryA path with
    | some h =>
      let s2 := resolveEntryPoints os h { s1 with g_iCueModule := some h }
      if s2.CorsairConnect_Fn.isSome ∧ s2.CorsairSetLedColors_Fn.isSome then
        (s2, true)
      else
        tryPaths os rest { s2.record (Call.FreeLibrary h) with g_iCueModule := none }
    | none => tryPaths os rest { s1 with g_iCueModule := none }

/-- The message of line 151. -/
def loadErrorMessage : String :=
  "Could not load iCUE SDK. Tried all known paths. Ensure Corsair iCUE is installed and running."

/-- The function `LoadSDK` (lines 60-154). -/
def LoadSDK (os : Win32) (s : State) : State × JsResult Bool :=
  if s.g_iCueModule.isSome then (s, JsResult.returned true)
  else
    let r := tryPaths os ((searchPaths os).take 15) s
    if r.2 then (r.1, JsResult.returned true)
    else (r.1, JsResult.threw JsErrorKind.Error loadErrorMessage)

/-! ## Session operations (lines 157-184) -/

/-- The function `Connect` (lines 157-167). -/
def Connect (H : SdkHeader) (v : Vendor) (s : State) : State × JsResult Bool :=
  if s.g_iCueModule.isNone ∨ s.CorsairConnect_Fn.isNone then
    (s, JsResult.threw JsErrorKind.Error "SDK not loaded. Call loadSDK() first.")
  else
    (s.record Call.CorsairConnect, JsResult.returned (decide (v.CorsairConnect = H.CE_Success)))

/-- The function `Disconnect` (lines 170-184). -/
def Disconnect (H : SdkHeader) (v : Vendor) (s : State) : State × JsResult Bool :=
  if s.g_iCueModule.isNone ∨ s.CorsairDisconnect_Fn.isNone then
    (s, JsResult.returned false)
  else
    let s1 :=
      if s.g_subscribed = true ∧ s.CorsairUnsubscribeFromEvents_Fn.isSome then
        { s.record Call.CorsairUnsubscribeFromEvents with g_subscribed := false }
      else s
    (s1.record Call.CorsairDisconnect,
      JsResult.returned (decide (v.CorsairDisconnect = H.CE_Success)))

/-! ## Device control (lines 187-270) -/

/-- The conversion `Napi::Number::Uint32Value` on an integral number. -/
def Uint32Value (n : Int) : Nat := (n % 2 ^ 32).toNat

/-- The narrowing conversion from `uint32_t` to `unsigned char`. -/
def toUnsignedChar (n : Nat) : Nat := n % 2 ^ 8

/-- The function `SetKeyColor` (lines 187-221); `argc` is `info.Length()`. -/
def SetKeyColor (H : SdkHeader) (v : Vendor) (argc : Nat) (deviceId : String)
    (ledLuidArg rArg gArg bArg : Int) (s : State) : State × JsResult Bool :=
  if argc < 3 then
    (s, JsResult.threw JsErrorKind.TypeError "setKeyColor requires 3 arguments")
  else if s.g_iCueModule.isNone ∨ s.CorsairSetLedColors_Fn.isNone then
    (s, JsResult.threw JsErrorKind.Error "SDK not loaded or connected")
  else
    let ledLuid := Uint32Value ledLuidArg
    let r := toUnsignedChar (Uint32Value rArg)
    let g := toUnsignedChar (Uint32Value gArg)
    let b := toUnsignedChar (Uint32Value bArg)
    let ledColor : CorsairLedColor := { id := ledLuid, r := r, g := g, b := b, a := 255 }
    (s.record (Call.CorsairSetLedColors deviceId 1 ledColor),
      JsResult.returned (decide (v.CorsairSetLedColors deviceId 1 ledColor = H.CE_Success)))

/-- What `GetKeyboards` hands back: the array, and (ghost) the indices `i` at which the
loop of lines 241-249 read `devices[i]`, in order. -/
structure KeyboardsOutcome where
  result : List DeviceObj
  slotsRead : List Nat
  deriving DecidableEq, Repr

/-- The body of the loop of lines 241-249 for one index. -/
def deviceObjOf (d : CorsairDeviceInfo) : DeviceObj :=
  { id := d.id, model := d.model, serial := d.serial, ledCount := d.ledCount }

/-- The function `GetKeyboards` (lines 224-252). -/
def GetKeyboards (H : SdkHeader) (v : Vendor) (s : State) : State × KeyboardsOutcome :=
  if s.g_iCueModule.isNone ∨ s.CorsairGetDevices_Fn.isNone then
    (s, { result := [], slotsRead := [] })
  else
    let answer := v.CorsairGetDevices H.CDT_Keyboard 10
    let err := answer.1
    let devices := answer.2.1
    let deviceCount := answer.2.2
    let s1 := s.record (Call.CorsairGetDevices H.CDT_Keyboard 10)
    if err ≠ H.CE_Success then
      (s1, { result := [], slotsRead := [] })
    else
      let slots := List.range deviceCount.toNat
      (s1, { result := slots.map (fun i => deviceObjOf (devices i)), slotsRead := slots })

/-- The function `RequestControl` (lines 255-270); `argc` is `info.Length()`. -/
def RequestControl (H : SdkHeader) (v : Vendor) (argc : Nat) (deviceId : String)
    (s : State) : State × JsResult Bool :=
  if argc < 1 then
    (s, JsResult.threw JsErrorKind.TypeError "requestControl requires device ID")
  else if s.g_iCueModule.isNone ∨ s.CorsairRequestControl_Fn.isNone then
    (s, JsResult.returned false)
  else
    (s.record (Call.CorsairRequestControl deviceId H.CAL_ExclusiveLightingControl),
      JsResult.returned
        (decide (v.CorsairRequestControl deviceId H.CAL_ExclusiveLightingControl
          = H.CE_Success)))

/-! ## `PollEvents` (lines 273-293) -/

/-- The loop of lines 280-290: `queue` is `g_eventQueue`, `index` the local counter and
`result` the array built so far; `mem` is vendor memory while the loop runs, read by
`event.keyEvent->keyId` and `event.keyEvent->isPressed` (lines 286-287).  Returns the
queue left behind and the array. -/
def pollLoop (H : SdkHeader) (mem : Nat → CorsairKeyEvent) :
    List CorsairEvent → Nat → List PolledEvent → List CorsairEvent × List PolledEvent
  | [], _, result => ([], result)
  | event :: rest, index, result =>
    if index < 100 then
      match event.keyEvent with
      | some ptr =>
        if event.id = H.CEI_KeyEvent then
          pollLoop H mem rest (index + 1)
            (result ++ [{ keyId := (mem ptr).keyId, isPressed := (mem ptr).isPressed }])
        else pollLoop H mem rest index result
      | none => pollLoop H mem rest index result
    else (event :: rest, result)

/-- The function `PollEvents` (lines 273-293), run against vendor memory `mem`. -/
def PollEvents (H : SdkHeader) (mem : Nat → CorsairKeyEvent) (s : State) :
    State × List PolledEvent :=
  let r := pollLoop H mem s.g_eventQueue 0 []
  ({ s with g_eventQueue := r.1 }, r.2)

/-! ## Specification-side vocabulary -/

/-- One invocation of the event callback by the vendor: the event struct passed in and
vendor memory as it stands during that invocation. -/
structure Delivery where
  event : Option CorsairEvent
  memory : Nat → CorsairKeyEvent

/-- Delivery of `ds`, oldest first, to the event callback. -/
def deliver (H : SdkHeader) (ds : List Delivery) (s : State) : State :=
  ds.foldl (fun st d => eventCallback H d.event st) s

/-- The pair read through a queued entry from memory `mem`. -/
def polledOf (mem : Nat → CorsairKeyEvent) (e : CorsairEvent) : Option PolledEvent :=
  e.keyEvent.map (fun ptr => { keyId := (mem ptr).keyId, isPressed := (mem ptr).isPressed })

/-- Queue contents the callback can produce: key events with a non-null payload pointer. -/
def QueueWF (H : SdkHeader) (q : List CorsairEvent) : Prop :=
  ∀ e ∈ q, e.id = H.CEI_KeyEvent ∧ e.keyEvent.isSome = true

/-- The concatenated results of `k` successive polls with no delivery in between. -/
def pollMany (H : SdkHeader) (mem : Nat → CorsairKeyEvent) :
    Nat → State → State × List PolledEvent
  | 0, s => (s, [])
  | k + 1, s =>
    let r := PollEvents H mem s
    let r2 := pollMany H mem k r.1
    (r2.1, r.2 ++ r2.2)

/-- The seven entry points the specification calls required. -/
def requiredSymbols : List String :=
  [ "CorsairConnect", "CorsairDisconnect", "CorsairSubscribeForEvents",
    "CorsairUnsubscribeFromEvents", "CorsairSetLedColors", "CorsairGetDevices",
    "CorsairRequestControl" ]

/-- The candidate loads and exports all seven entry points. -/
def fullyResolves (os : Win32) (path : String) : Bool :=
  match os.LoadLibraryA path with
  | some h => requiredSymbols.all (fun sym => (os.GetProcAddress h sym).isSome)
  | none => false

/-- The candidate loads and exports the two entry points tested on line 138. -/
def accepted (os : Win32) (path : String) : Bool :=
  match os.LoadLibraryA path with
  | some h =>
    (os.GetProcAddress h "CorsairConnect").isSome
      && (os.GetProcAddress h "CorsairSetLedColors").isSome
  | none => false

/-- The loader calls made for a candidate that is not accepted: the load attempt and,
when it loaded, the unload. -/
def attemptLog (os : Win32) (path : String) : List Call :=
  match os.LoadLibraryA path with
  | some h => [Call.LoadLibraryA path, Call.FreeLibrary h]
  | none => [Call.LoadLibraryA path]

/-- The paths of the load attempts recorded in a log, in order. -/
def loadAttempts (log : List Call) : List String :=
  log.filterMap (fun c => match c with
    | Call.LoadLibraryA path => some path
    | _ => none)

/-- The handle of the last candidate that loaded, if any did. -/
def lastLoaded (os : Win32) (paths : List String) : Option Nat :=
  (paths.filterMap os.LoadLibraryA).getLast?

/-- The seven entry-point globals, in declaration order. -/
def State.entryPoints (s : State) : List (Option Nat) :=
  [ s.CorsairConnect_Fn, s.CorsairDisconnect_Fn, s.CorsairSubscribeForEvents_Fn,
    s.CorsairUnsubscribeFromEvents_Fn, s.CorsairSetLedColors_Fn, s.CorsairGetDevices_Fn,
    s.CorsairRequestControl_Fn ]

/-- The seven lookups on a library handle, in the same order. -/
def lookups (os : Win32) (h : Nat) : List (Option Nat) :=
  requiredSymbols.map (os.GetProcAddress h)

/-- A loaded module comes with the two entry points that `LoadSDK` insists on. -/
def LoadedInv (s : State) : Prop :=
  s.g_iCueModule.isSome = true →
    s.CorsairConnect_Fn.isSome = true ∧ s.CorsairSetLedColors_Fn.isSome = true

/-- The state after one candidate was tried and not accepted (lines 122-148). -/
def rejectOne (os : Win32) (s : State) (path : String) : State :=
  match os.LoadLibraryA path with
  | some h =>
    { (resolveEntryPoints os h
        { s.record (Call.LoadLibraryA path) with g_iCueModule := some h }).record
        (Call.FreeLibrary h) with g_iCueModule := none }
  | none => { s.record (Call.LoadLibraryA path) with g_iCueModule := none }

/-! ## Concrete environments used for evaluation -/

/-- A machine with two libraries: the bare name loads as handle 1 and exports only
`CorsairConnect` and `CorsairSetLedColors`; the second static path loads as handle 2 and
exports every symbol. -/
def osPartialThenFull : Win32 :=
  { moduleFileName := none
    PathRemoveFileSpecA := fun p => p
    LoadLibraryA := fun p =>
      if p = "iCUESDK.dll" then some 1 else if p = ".\\iCUESDK.dll" then some 2 else none
    GetProcAddress := fun h sym =>
      if h = 2 then some 20
      else if sym = "CorsairConnect" ∨ sym = "CorsairSetLedColors" then some 10 else none }

/-- A machine on which the module path is unknown, the first static path does not load,
the second loads (handle 1) without `CorsairConnect`, and the third loads (handle 2)
with every symbol. -/
def osThirdWins : Win32 :=
  { moduleFileName := none
    PathRemoveFileSpecA := fun p => p
    LoadLibraryA := fun p =>
      if p = ".\\iCUESDK.dll" then some 1
      else if p = "build\\Release\\iCUESDK.dll" then some 2 else none
    GetProcAddress := fun h sym =>
      if h = 2 then some 20 else if sym = "CorsairConnect" then none else some 10 }

/-- A machine on which only the bare name loads (handle 1) and the library exports
`CorsairDisconnect` and nothing else. -/
def osOnlyDisconnect : Win32 :=
  { moduleFileName := none
    PathRemoveFileSpecA := fun p => p
    LoadLibraryA := fun p => if p = "iCUESDK.dll" then some 1 else none
    GetProcAddress := fun _ sym => if sym = "CorsairDisconnect" then some 9 else none }

/-- A machine on which the bare name loads (handle 1) and exports every symbol. -/
def osFull : Win32 :=
  { moduleFileName := none
    PathRemoveFileSpecA := fun p => p
    LoadLibraryA := fun p => if p = "iCUESDK.dll" then some 1 else none
    GetProcAddress := fun _ _ => some 7 }

/-- A machine on which the bare name loads (handle 1) and exports every symbol except
`CorsairUnsubscribeFromEvents`. -/
def osNoUnsubscribe : Win32 :=
  { moduleFileName := none
    PathRemoveFileSpecA := fun p => p
    LoadLibraryA := fun p => if p = "iCUESDK.dll" then some 1 else none
    GetProcAddress := fun _ sym =>
      if sym = "CorsairUnsubscribeFromEvents" then none else some 7 }

/-- A vendor library whose calls all succeed and whose device listing reports `count`
devices, slot `i` holding a keyboard with `i` LEDs. -/
def vendorOk (count : Int) : Vendor :=
  { CorsairConnect := 0
    CorsairDisconnect := 0
    CorsairSubscribeForEvents := 0
    CorsairUnsubscribeFromEvents := 0
    CorsairSetLedColors := fun _ _ _ => 0
    CorsairGetDevices := fun _ _ =>
      (0, fun i => { id := "kb", model := "K", serial := "S", ledCount := i }, count)
    CorsairRequestControl := fun _ _ => 0 }

/-- A vendor library whose calls all fail with code 1, the listing still reporting three
devices. -/
def vendorFailing : Vendor :=
  { CorsairConnect := 1
    CorsairDisconnect := 1
    CorsairSubscribeForEvents := 1
    CorsairUnsubscribeFromEvents := 1
    CorsairSetLedColors := fun _ _ _ => 1
    CorsairGetDevices := fun _ _ =>
      (1, fun i => { id := "kb", model := "K", serial := "S", ledCount := i }, 3)
    CorsairRequestControl := fun _ _ => 1 }

/-- The state after a successful `LoadSDK` on `osFull`. -/
def stateLoaded : State := (LoadSDK osFull State.init).1

/-- The state after `LoadSDK` on `osNoUnsubscribe`, `Connect`, and one Connected
notification. -/
def stateSubscribedNoUnsubscribe : State :=
  SessionStateChangedHandler sdk4 (some { state := 6 })
    (Connect sdk4 (vendorOk 0) (LoadSDK osNoUnsubscribe State.init).1).1

/-- Vendor memory holding a press of key 5 at address 1 and a release of key 6
everywhere else. -/
def memTwoKeys : Nat → CorsairKeyEvent :=
  fun a =>
    if a = 1 then { keyId := 5, isPressed := true } else { keyId := 6, isPressed := false }

/-- A mixed delivery against `memTwoKeys`: a key press, a device event, a null event, a key
event with a null payload pointer, a key release. -/
def sampleDeliveries : List Delivery :=
  [ { event := some { id := 2, keyEvent := some 1 }, memory := memTwoKeys },
    { event := some { id := 1, keyEvent := none }, memory := memTwoKeys },
    { event := none, memory := memTwoKeys },
    { event := some { id := 2, keyEvent := none }, memory := memTwoKeys },
    { event := some { id := 2, keyEvent := some 2 }, memory := memTwoKeys } ]

theorem QueueWF.tail {H : SdkHeader} {e : CorsairEvent} {q : List CorsairEvent}
    (h : QueueWF H (e :: q)) : QueueWF H q :=
  fun x hx => h x (List.mem_cons_of_mem _ hx)

theorem QueueWF.drop {H : SdkHeader} {q : List CorsairEvent} (h : QueueWF H q) (n : Nat) :
    QueueWF H (q.drop n) :=
  fun x hx => h x (List.mem_of_mem_drop hx)

theorem polledOf_of_wf (mem : Nat → CorsairKeyEvent) (e : CorsairEvent)
    (he : e.keyEvent.isSome = true) : ∃ pe, polledOf mem e = some pe := by
  obtain ⟨ptr, hptr⟩ := Option.isSome_iff_exists.mp he
  exact ⟨{ keyId := (mem ptr).keyId, isPressed := (mem ptr).isPressed }, by
    simp [polledOf, hptr]⟩

theorem filterMap_polledOf_length (H : SdkHeader) (mem : Nat → CorsairKeyEvent)
    (q : List CorsairEvent) (h : QueueWF H q) :
    (q.filterMap (polledOf mem)).length = q.length := by
  induction q with
  | nil => simp
  | cons e rest ih =>
    obtain ⟨pe, hp⟩ := polledOf_of_wf mem e (h e (List.mem_cons_self _ _)).2
    simp [List.filterMap_cons, hp, ih h.tail]

theorem pollLoop_wf (H : SdkHeader) (mem : Nat → CorsairKeyEvent) (q : List CorsairEvent)
    (hq : QueueWF H q) :
    ∀ (index : Nat) (result : List PolledEvent), index ≤ 100 →
      pollLoop H mem q index result
        = (q.drop (100 - index),
            result ++ (q.take (100 - index)).filterMap (polledOf mem)) := by
  induction q with
  | nil => intro index result _; simp [pollLoop]
  | cons e rest ih =>
    intro index result hle
    have he := hq e (List.mem_cons_self _ _)
    obtain ⟨ptr, hptr⟩ := Option.isSome_iff_exists.mp he.2
    by_cases hlt : index < 100
    · have hsucc : 100 - index = (100 - (index + 1)) + 1 := by omega
      have hp : polledOf mem e
          = some { keyId := (mem ptr).keyId, isPressed := (mem ptr).isPressed } := by
        simp [polledOf, hptr]
      rw [pollLoop]
      simp only [hlt, if_true, hptr, he.1]
      rw [ih hq.tail (index + 1) _ (by omega), hsucc]
      simp [List.filterMap_cons, hp]
    · have hz : 100 - index = 0 := by omega
      rw [pollLoop]
      simp [hlt, hz]

theorem PollEvents_wf (H : SdkHeader) (mem : Nat → CorsairKeyEvent) (s : State)
    (hq : QueueWF H s.g_eventQueue) :
    PollEvents H mem s
      = ({ s with g_eventQueue := s.g_eventQueue.drop 100 },
          (s.g_eventQueue.take 100).filterMap (polledOf mem)) := by
  unfold PollEvents
  rw [pollLoop_wf H mem _ hq 0 [] (by omega)]
  simp

theorem pollMany_wf (H : SdkHeader) (mem : Nat → CorsairKeyEvent) :
    ∀ (k : Nat) (s : State), QueueWF H s.g_eventQueue →
      pollMany H mem k s
        = ({ s with g_eventQueue := s.g_eventQueue.drop (100 * k) },
            (s.g_eventQueue.take (100 * k)).filterMap (polledOf mem)) := by
  intro k
  induction k with
  | zero => intro s _; simp [pollMany]
  | succ k ih =>
    intro s hq
    have hmul : 100 * (k + 1) = 100 + 100 * k := by ring
    rw [pollMany]
    simp only [PollEvents_wf H mem s hq]
    rw [ih _ (by simpa using hq.drop 100)]
    simp only [List.drop_drop, hmul]
    refine Prod.ext ?_ ?_
    · simp [Nat.add_comm]
    · simp only
      rw [← List.filterMap_append]
      congr 1
      rw [List.take_add]

theorem take_filterMap_polledOf (H : SdkHeader) (mem : Nat → CorsairKeyEvent)
    (q : List CorsairEvent) (hq : QueueWF H q) :
    ∀ n : Nat, (q.take n).filterMap (polledOf mem) = (q.filterMap (polledOf mem)).take n := by
  induction q with
  | nil => intro n; simp
  | cons e rest ih =>
    intro n
    obtain ⟨pe, hp⟩ := polledOf_of_wf mem e (hq e (List.mem_cons_self _ _)).2
    cases n with
    | zero => simp
    | succ n => simp [List.take_succ_cons, List.filterMap_cons, hp, ih hq.tail n]

/-- C5: on every queue the callback can have produced, one `PollEvents` returns the first
`min 100 |q|` entries (never more than 100) and leaves exactly the remaining entries queued
in their order; the concatenated results of successive polls equal the whole queue, after
which it is empty; a poll on an empty queue returns the empty sequence. -/
theorem PollEvents_bounded_and_lossless (H : SdkHeader) (mem : Nat → CorsairKeyEvent)
    (s : State) (hq : QueueWF H s.g_eventQueue) :
    (PollEvents H mem s).2 = (s.g_eventQueue.take 100).filterMap (polledOf mem)
      ∧ (PollEvents H mem s).2.length = min 100 s.g_eventQueue.length
      ∧ (PollEvents H mem s).2.length ≤ 100
      ∧ (PollEvents H mem s).1.g_eventQueue = s.g_eventQueue.drop 100
      ∧ (PollEvents H mem s).1.g_eventQueue.length
          = s.g_eventQueue.length - min 100 s.g_eventQueue.length
      ∧ (PollEvents H mem s).2
            ++ (PollEvents H mem s).1.g_eventQueue.filterMap (polledOf mem)
          = s.g_eventQueue.filterMap (polledOf mem)
      ∧ (∀ k : Nat, s.g_eventQueue.length ≤ 100 * k →
          (pollMany H mem k s).2 = s.g_eventQueue.filterMap (polledOf mem)
            ∧ (pollMany H mem k s).2.length = s.g_eventQueue.length
            ∧ (pollMany H mem k s).1.g_eventQueue = [])
      ∧ (s.g_eventQueue = [] → (PollEvents H mem s).2 = []) := by
  have hlen : ((s.g_eventQueue.take 100).filterMap (polledOf mem)).length
      = min 100 s.g_eventQueue.length := by
    rw [take_filterMap_polledOf H mem _ hq, List.length_take,
      filterMap_polledOf_length H mem _ hq]
  rw [PollEvents_wf H mem s hq]
  refine ⟨rfl, hlen, ?_, rfl, ?_, ?_, ?_, ?_⟩
  · simp only; rw [hlen]; exact Nat.min_le_left _ _
  · simp only [List.length_drop]; omega
  · simp only
    rw [← List.filterMap_append, List.take_append_drop]
  · intro k hk
    rw [pollMany_wf H mem k s hq]
    simp only
    rw [List.take_of_length_le hk, List.drop_eq_nil_of_le hk]
    exact ⟨rfl, filterMap_polledOf_length H mem _ hq, rfl⟩
  · intro hnil
    simp [hnil]

/-- Evaluation of C5 on the queue left by the mixed delivery. -/
theorem PollEvents_bounded_and_lossless_witness :
    QueueWF sdk4 (deliver sdk4 sampleDeliveries State.init).g_eventQueue
      ∧ (PollEvents sdk4 memTwoKeys (deliver sdk4 sampleDeliveries State.init)).2
          = [{ keyId := 5, isPressed := true }, { keyId := 6, isPressed := false }]
      ∧ (PollEvents sdk4 memTwoKeys
          (deliver sdk4 sampleDeliveries State.init)).1.g_eventQueue = [] := by
  have hwf : QueueWF sdk4 (deliver sdk4 sampleDeliveries State.init).g_eventQueue := by
    unfold QueueWF; decide
  have h := PollEvents_bounded_and_lossless sdk4 memTwoKeys
    (deliver sdk4 sampleDeliveries State.init) hwf
  refine ⟨hwf, ?_, ?_⟩
  · rw [h.1]; decide
  · rw [h.2.2.2.1]; decide

/-! ## The library search -/

theorem searchPaths_length (os : Win32) : (searchPaths os).length ≤ 15 := by
  unfold searchPaths moduleDirPaths
  cases os.moduleFileName <;> simp [staticPaths]

theorem searchPaths_take (os : Win32) : (searchPaths os).take 15 = searchPaths os :=
  List.take_of_length_le (searchPaths_length os)

theorem tryPaths_rejected (os : Win32) (path : String) (rest : List String) (s : State)
    (h : accepted os path = false) :
    tryPaths os (path :: rest) s = tryPaths os rest (rejectOne os s path) := by
  unfold accepted at h
  rw [tryPaths]
  unfold rejectOne
  cases hl : os.LoadLibraryA path with
  | none => simp
  | some hd =>
    rw [hl] at h
    have h2 : ¬ ((os.GetProcAddress hd "CorsairConnect").isSome = true
        ∧ (os.GetProcAddress hd "CorsairSetLedColors").isSome = true) := by
      intro hc
      simp [hc.1, hc.2] at h
    simp [resolveEntryPoints, State.record, h2]

theorem tryPaths_accepted (os : Win32) (path : String) (rest : List String) (s : State)
    (hd : Nat) (hl : os.LoadLibraryA path = some hd) (h : accepted os path = true) :
    tryPaths os (path :: rest) s
      = (resolveEntryPoints os hd
          { s.record (Call.LoadLibraryA path) with g_iCueModule := some hd }, true) := by
  unfold accepted at h
  rw [hl] at h
  have h2 : (os.GetProcAddress hd "CorsairConnect").isSome = true
      ∧ (os.GetProcAddress hd "CorsairSetLedColors").isSome = true := by
    simpa using h
  rw [tryPaths]
  simp [hl, resolveEntryPoints, State.record, h2]

theorem tryPaths_append (os : Win32) (pre rest : List String) :
    ∀ s : State, (∀ q ∈ pre, accepted os q = false) →
      tryPaths os (pre ++ rest) s = tryPaths os rest (pre.foldl (rejectOne os) s) := by
  induction pre with
  | nil => intro s _; simp
  | cons q pre ih =>
    intro s hrej
    rw [List.cons_append, tryPaths_rejected os q _ s (hrej q (List.mem_cons_self _ _))]
    rw [ih _ (fun x hx => hrej x (List.mem_cons_of_mem _ hx))]
    simp

theorem tryPaths_all_rejected (os : Win32) (paths : List String) (s : State)
    (hrej : ∀ q ∈ paths, accepted os q = false) :
    tryPaths os paths s = (paths.foldl (rejectOne os) s, false) := by
  have h := tryPaths_append os paths [] s hrej
  simpa [tryPaths] using h

theorem rejectOne_log (os : Win32) (s : State) (path : String) :
    (rejectOne os s path).log = s.log ++ attemptLog os path := by
  unfold rejectOne attemptLog
  cases os.LoadLibraryA path <;> simp [resolveEntryPoints, State.record]

theorem rejectOne_module (os : Win32) (s : State) (path : String) :
    (rejectOne os s path).g_iCueModule = none := by
  unfold rejectOne
  cases os.LoadLibraryA path <;> rfl

theorem rejectOne_queue (os : Win32) (s : State) (path : String) :
    (rejectOne os s path).g_eventQueue = s.g_eventQueue
      ∧ (rejectOne os s path).g_subscribed = s.g_subscribed := by
  unfold rejectOne
  cases os.LoadLibraryA path <;> simp [resolveEntryPoints, State.record]

theorem rejectOne_entryPoints (os : Win32) (s : State) (path : String) :
    (rejectOne os s path).entryPoints
      = match os.LoadLibraryA path with
        | some h => lookups os h
        | none => s.entryPoints := by
  unfold rejectOne
  cases os.LoadLibraryA path <;>
    simp [resolveEntryPoints, State.record, State.entryPoints, lookups, requiredSymbols]

theorem rejectAll_log (os : Win32) (paths : List String) :
    ∀ s : State, (paths.foldl (rejectOne os) s).log
      = s.log ++ (paths.map (attemptLog os)).flatten := by
  induction paths with
  | nil => intro s; simp
  | cons q rest ih =>
    intro s
    simp [List.foldl_cons, ih, rejectOne_log, List.append_assoc]

theorem rejectAll_module (os : Win32) (paths : List String) :
    ∀ s : State, s.g_iCueModule = none →
      (paths.foldl (rejectOne os) s).g_iCueModule = none := by
  induction paths with
  | nil => intro s hs; simpa using hs
  | cons q rest ih =>
    intro s _
    simpa [List.foldl_cons] using ih _ (rejectOne_module os s q)

theorem rejectAll_queue (os : Win32) (paths : List String) :
    ∀ s : State, (paths.foldl (rejectOne os) s).g_eventQueue = s.g_eventQueue
      ∧ (paths.foldl (rejectOne os) s).g_subscribed = s.g_subscribed := by
  induction paths with
  | nil => intro s; simp
  | cons q rest ih =>
    intro s
    have h1 := ih (rejectOne os s q)
    have h2 := rejectOne_queue os s q
    simp only [List.foldl_cons]
    exact ⟨h1.1.trans h2.1, h1.2.trans h2.2⟩

theorem rejectAll_entryPoints (os : Win32) (paths : List String) :
    ∀ s : State, (paths.foldl (rejectOne os) s).entryPoints
      = match lastLoaded os paths with
        | some h => lookups os h
        | none => s.entryPoints := by
  induction paths with
  | nil => intro s; simp [lastLoaded]
  | cons q rest ih =>
    intro s
    simp only [List.foldl_cons]
    rw [ih, rejectOne_entryPoints]
    unfold lastLoaded
    cases hq : os.LoadLibraryA q with
    | none => simp [List.filterMap_cons, hq]
    | some h =>
      simp only [List.filterMap_cons, hq, List.getLast?_cons]
      cases (List.filterMap os.LoadLibraryA rest).getLast? <;> simp

theorem tryPaths_success (os : Win32) (paths : List String) :
    ∀ s s2 : State, tryPaths os paths s = (s2, true) →
      s2.g_iCueModule.isSome = true ∧ s2.CorsairConnect_Fn.isSome = true
        ∧ s2.CorsairSetLedColors_Fn.isSome = true := by
  induction paths with
  | nil => intro s s2 h; simp [tryPaths] at h
  | cons q rest ih =>
    intro s s2 h
    cases hacc : accepted os q with
    | false =>
      rw [tryPaths_rejected os q rest s hacc] at h
      exact ih _ _ h
    | true =>
      have hacc2 := hacc
      unfold accepted at hacc2
      cases hl : os.LoadLibraryA q with
      | none => simp [hl] at hacc2
      | some hd =>
        rw [hl] at hacc2
        rw [tryPaths_accepted os q rest s hd hl hacc] at h
        have hs : s2 = resolveEntryPoints os hd
            { s.record (Call.LoadLibraryA q) with g_iCueModule := some hd } := by
          have := congrArg Prod.fst h
          exact this.symm
        subst hs
        have h2 : (os.GetProcAddress hd "CorsairConnect").isSome = true
            ∧ (os.GetProcAddress hd "CorsairSetLedColors").isSome = true := by
          simpa using hacc2
        simp [resolveEntryPoints, State.record, h2]

theorem loadAttempts_append (a b : List Call) :
    loadAttempts (a ++ b) = loadAttempts a ++ loadAttempts b := by
  simp [loadAttempts, List.filterMap_append]

theorem loadAttempts_attemptLog (os : Win32) (paths : List String) :
    loadAttempts ((paths.map (attemptLog os)).flatten) = paths := by
  induction paths with
  | nil => simp [loadAttempts]
  | cons q rest ih =>
    rw [List.map_cons, List.flatten_cons, loadAttempts_append, ih]
    unfold attemptLog
    cases os.LoadLibraryA q <;> simp [loadAttempts]

theorem split_at_index (l : List String) (k : Nat) (p : String) (hk : l[k]? = some p) :
    l = l.take k ++ p :: l.drop (k + 1) := by
  obtain ⟨hlt, hget⟩ := List.getElem?_eq_some.mp hk
  have h1 : l.drop k = p :: l.drop (k + 1) := by
    rw [List.drop_eq_getElem_cons hlt, hget]
  calc l = l.take k ++ l.drop k := (List.take_append_drop k l).symm
    _ = l.take k ++ p :: l.drop (k + 1) := by rw [h1]

theorem tryPaths_failure_module (os : Win32) (paths : List String) :
    ∀ s s2 : State, s.g_iCueModule = none → tryPaths os paths s = (s2, false) →
      s2.g_iCueModule = none := by
  induction paths with
  | nil =>
    intro s s2 hs h
    have h1 : s = s2 := by simpa [tryPaths] using h
    rw [← h1]; exact hs
  | cons q rest ih =>
    intro s s2 _ h
    cases hacc : accepted os q with
    | false =>
      rw [tryPaths_rejected os q rest s hacc] at h
      exact ih _ _ (rejectOne_module os s q) h
    | true =>
      have hacc2 := hacc
      unfold accepted at hacc2
      cases hl : os.LoadLibraryA q with
      | none => simp [hl] at hacc2
      | some hd =>
        rw [tryPaths_accepted os q rest s hd hl hacc] at h
        simp at h

theorem LoadedInv_init : LoadedInv State.init := by
  unfold LoadedInv; decide

theorem LoadedInv_LoadSDK (os : Win32) (s : State) (h : LoadedInv s) :
    LoadedInv (LoadSDK os s).1 := by
  unfold LoadSDK
  by_cases hm : s.g_iCueModule.isSome = true
  · rw [if_pos hm]; exact h
  · rw [if_neg hm]
    have hnone : s.g_iCueModule = none := by
      cases hx : s.g_iCueModule <;> simp [hx] at hm ⊢
    cases hr : (tryPaths os ((searchPaths os).take 15) s).2 with
    | true =>
      simp only [hr, if_true]
      intro _
      exact (tryPaths_success os _ s _ (Prod.ext rfl hr)).2
    | false =>
      simp only [hr, Bool.false_eq_true, if_false]
      intro hsome
      have := tryPaths_failure_module os _ s _ hnone (Prod.ext rfl hr)
      simp [this] at hsome

theorem LoadedInv_session (H : SdkHeader) (v : Vendor) (s : State) (h : LoadedInv s)
    (eventData : Option CorsairSessionStateChanged) (event : Option CorsairEvent) :
    LoadedInv (Connect H v s).1 ∧ LoadedInv (Disconnect H v s).1
      ∧ LoadedInv (SessionStateChangedHandler H eventData s)
      ∧ LoadedInv (eventCallback H event s)
      ∧ (∀ mem : Nat → CorsairKeyEvent, LoadedInv (PollEvents H mem s).1)
      ∧ LoadedInv (GetKeyboards H v s).1
      ∧ (∀ (argc : Nat) (deviceId : String) (ledLuidArg rArg gArg bArg : Int),
          LoadedInv (SetKeyColor H v argc deviceId ledLuidArg rArg gArg bArg s).1)
      ∧ (∀ (argc : Nat) (deviceId : String),
          LoadedInv (RequestControl H v argc deviceId s).1) := by
  unfold LoadedInv at h ⊢
  refine ⟨?_, ?_, ?_, ?_, ?_, ?_, ?_, ?_⟩
  · unfold Connect; split <;> simpa [State.record] using h
  · unfold Disconnect; split
    · simpa using h
    · split <;> simpa [State.record] using h
  · unfold SessionStateChangedHandler
    cases eventData with
    | none => simpa using h
    | some d =>
      simp only
      split
      · split <;> simpa [State.record] using h
      · simpa using h
  · unfold eventCallback
    cases event with
    | none => simpa using h
    | some ev => simp only; split <;> simpa using h
  · intro mem; simpa [PollEvents] using h
  · unfold GetKeyboards; split
    · simpa using h
    · simp only; split <;> simpa [State.record] using h
  · intro argc deviceId ledLuidArg rArg gArg bArg
    unfold SetKeyColor; split
    · simpa using h
    · split <;> simpa [State.record] using h
  · intro argc deviceId
    unfold RequestControl; split
    · simpa using h
    · split <;> simpa [State.record] using h

/-! ## Claims about `LoadSDK` -/

/-- C2 (as stated, refuted): only the second candidate loads with all seven entry points,
the first loads with five of them missing, and `LoadSDK` reports success holding the first
candidate after a single load attempt. -/
theorem LoadSDK_keeps_earlier_partial_candidate :
    (searchPaths osPartialThenFull).map (fullyResolves osPartialThenFull)
        = [false, true, false, false, false, false, false, false, false, false]
      ∧ osPartialThenFull.LoadLibraryA ".\\iCUESDK.dll" = some 2
      ∧ (LoadSDK osPartialThenFull State.init).2 = JsResult.returned true
      ∧ (LoadSDK osPartialThenFull State.init).1.g_iCueModule = some 1
      ∧ loadAttempts (LoadSDK osPartialThenFull State.init).1.log = ["iCUESDK.dll"] := by
  decide

/-- C2 (amended): when the candidate at position `k` of the search list is the first one
that loads and exports `CorsairConnect` and `CorsairSetLedColors`, `LoadSDK` called with no
module loaded reports success holding exactly that candidate, after attempting the
candidates up to and including position `k` in the declared order and none after it; every
earlier candidate that loaded has been unloaded. -/
theorem LoadSDK_picks_first_accepted (os : Win32) (s : State) (k : Nat) (p : String)
    (hs : s.g_iCueModule = none)
    (hk : (searchPaths os)[k]? = some p)
    (hacc : accepted os p = true)
    (hrej : ∀ q ∈ (searchPaths os).take k, accepted os q = false) :
    (LoadSDK os s).2 = JsResult.returned true
      ∧ (LoadSDK os s).1.g_iCueModule = os.LoadLibraryA p
      ∧ (LoadSDK os s).1.g_iCueModule.isSome = true
      ∧ (LoadSDK os s).1.log
          = s.log ++ (((searchPaths os).take k).map (attemptLog os)).flatten
              ++ [Call.LoadLibraryA p]
      ∧ loadAttempts (LoadSDK os s).1.log
          = loadAttempts s.log ++ (searchPaths os).take (k + 1) := by
  have hacc2 := hacc
  unfold accepted at hacc2
  cases hl : os.LoadLibraryA p with
  | none => simp [hl] at hacc2
  | some hd =>
    have hsplit := split_at_index (searchPaths os) k p hk
    have hrun : tryPaths os ((searchPaths os).take 15) s
        = (resolveEntryPoints os hd
            { (((searchPaths os).take k).foldl (rejectOne os) s).record
                (Call.LoadLibraryA p) with g_iCueModule := some hd }, true) := by
      have hrun0 := tryPaths_append os ((searchPaths os).take k)
        (p :: (searchPaths os).drop (k + 1)) s hrej
      rw [← hsplit, tryPaths_accepted os p _ _ hd hl hacc] at hrun0
      rw [searchPaths_take]
      exact hrun0
    have hlog : (LoadSDK os s).1.log
        = s.log ++ (((searchPaths os).take k).map (attemptLog os)).flatten
            ++ [Call.LoadLibraryA p] := by
      simp [LoadSDK, hs, hrun, resolveEntryPoints, State.record, rejectAll_log]
    refine ⟨?_, ?_, ?_, hlog, ?_⟩
    · simp [LoadSDK, hs, hrun]
    · simp [LoadSDK, hs, hrun, resolveEntryPoints]
    · simp [LoadSDK, hs, hrun, resolveEntryPoints]
    · rw [hlog, loadAttempts_append, loadAttempts_append, loadAttempts_attemptLog,
        List.take_succ, hk, List.append_assoc]
      simp [loadAttempts]

/-- Evaluation of the amended C2 where the third candidate wins. -/
theorem LoadSDK_picks_first_accepted_witness :
    (LoadSDK osThirdWins State.init).2 = JsResult.returned true
      ∧ (LoadSDK osThirdWins State.init).1.g_iCueModule = some 2
      ∧ (LoadSDK osThirdWins State.init).1.log
          = [Call.LoadLibraryA "iCUESDK.dll", Call.LoadLibraryA ".\\iCUESDK.dll",
              Call.FreeLibrary 1, Call.LoadLibraryA "build\\Release\\iCUESDK.dll"] := by
  have h := LoadSDK_picks_first_accepted osThirdWins State.init 2
    "build\\Release\\iCUESDK.dll" (by decide) (by decide) (by decide) (by decide)
  refine ⟨h.1, ?_, ?_⟩
  · rw [h.2.1]; decide
  · rw [h.2.2.2.1]; decide

/-- C7 (as stated, refuted): the only library that loads lacks `CorsairConnect`; `LoadSDK`
reports the load error with a null module handle and the library unloaded, yet
`CorsairDisconnect_Fn` still holds the address looked up in the unloaded library. -/
theorem LoadSDK_failure_leaves_stale_entry_point :
    (LoadSDK osOnlyDisconnect State.init).2
        = JsResult.threw JsErrorKind.Error loadErrorMessage
      ∧ (LoadSDK osOnlyDisconnect State.init).1.g_iCueModule = none
      ∧ Call.FreeLibrary 1 ∈ (LoadSDK osOnlyDisconnect State.init).1.log
      ∧ State.init.CorsairDisconnect_Fn = none
      ∧ (LoadSDK osOnlyDisconnect State.init).1.CorsairDisconnect_Fn = some 9 := by
  decide

/-- C7 (amended): when no candidate both loads and exports `CorsairConnect` and
`CorsairSetLedColors`, `LoadSDK` called with no module loaded reports the load error and
leaves the module handle null, the event queue and the subscribed flag untouched, and every
candidate that loaded unloaded right after its load; the seven entry-point globals hold
the lookups made on the last candidate that loaded, and are unchanged when none loaded. -/
theorem LoadSDK_failure_leaves_no_module (os : Win32) (s : State)
    (hs : s.g_iCueModule = none)
    (hrej : ∀ q ∈ searchPaths os, accepted os q = false) :
    (LoadSDK os s).2 = JsResult.threw JsErrorKind.Error loadErrorMessage
      ∧ (LoadSDK os s).1.g_iCueModule = none
      ∧ (LoadSDK os s).1.log = s.log ++ ((searchPaths os).map (attemptLog os)).flatten
      ∧ (LoadSDK os s).1.g_eventQueue = s.g_eventQueue
      ∧ (LoadSDK os s).1.g_subscribed = s.g_subscribed
      ∧ (LoadSDK os s).1.entryPoints
          = match lastLoaded os (searchPaths os) with
            | some h => lookups os h
            | none => s.entryPoints := by
  have hrun : tryPaths os ((searchPaths os).take 15) s
      = ((searchPaths os).foldl (rejectOne os) s, false) := by
    rw [searchPaths_take, tryPaths_all_rejected os _ s hrej]
  have hstate : (LoadSDK os s).1 = (searchPaths os).foldl (rejectOne os) s := by
    simp [LoadSDK, hs, hrun]
  refine ⟨?_, ?_, ?_, ?_, ?_, ?_⟩
  · simp [LoadSDK, hs, hrun]
  · rw [hstate]; exact rejectAll_module os _ s hs
  · rw [hstate]; exact rejectAll_log os _ s
  · rw [hstate]; exact (rejectAll_queue os _ s).1
  · rw [hstate]; exact (rejectAll_queue os _ s).2
  · rw [hstate]; exact rejectAll_entryPoints os _ s

/-- Evaluation of the amended C7 on the library that exports only `CorsairDisconnect`. -/
theorem LoadSDK_failure_leaves_no_module_witness :
    (LoadSDK osOnlyDisconnect State.init).2
        = JsResult.threw JsErrorKind.Error loadErrorMessage
      ∧ (LoadSDK osOnlyDisconnect State.init).1.g_iCueModule = none
      ∧ (LoadSDK osOnlyDisconnect State.init).1.entryPoints
          = [none, some 9, none, none, none, none, none] := by
  have h := LoadSDK_failure_leaves_no_module osOnlyDisconnect State.init (by decide)
    (by decide)
  refine ⟨h.1, h.2.1, ?_⟩
  rw [h.2.2.2.2.2]; decide

/-! ## Claims about the session -/

/-- C3 (as stated, refuted): from a loaded, not yet subscribed session, two consecutive
Connected notifications make two calls to the vendor's `CorsairSubscribeForEvents`. -/
theorem two_Connected_notifications_subscribe_twice :
    stateLoaded.g_iCueModule = some 1
      ∧ stateLoaded.g_subscribed = false
      ∧ (SessionStateChangedHandler sdk4 (some { state := 6 })
          (SessionStateChangedHandler sdk4 (some { state := 6 }) stateLoaded)).log.count
            Call.CorsairSubscribeForEvents = 2 := by
  decide

/-- C3 (amended): every Connected notification received while `CorsairSubscribeForEvents`
is resolved makes exactly one subscription call and sets the subscribed flag, whether or
not the flag is already set; two consecutive Connected notifications make two calls. -/
theorem SessionStateChangedHandler_subscribes_on_every_Connected (H : SdkHeader)
    (s : State) (hfn : s.CorsairSubscribeForEvents_Fn.isSome = true) :
    (SessionStateChangedHandler H (some { state := H.CSS_Connected }) s).log
        = s.log ++ [Call.CorsairSubscribeForEvents]
      ∧ (SessionStateChangedHandler H (some { state := H.CSS_Connected }) s).g_subscribed
          = true
      ∧ (SessionStateChangedHandler H (some { state := H.CSS_Connected })
          (SessionStateChangedHandler H (some { state := H.CSS_Connected }) s)).log
          = s.log ++ [Call.CorsairSubscribeForEvents, Call.CorsairSubscribeForEvents]
      ∧ (SessionStateChangedHandler H (some { state := H.CSS_Connected })
          (SessionStateChangedHandler H (some { state := H.CSS_Connected }) s)).g_subscribed
          = true := by
  simp [SessionStateChangedHandler, State.record, hfn]

/-- Evaluation of the amended C3 on the freshly loaded session. -/
theorem SessionStateChangedHandler_subscribes_on_every_Connected_witness :
    stateLoaded.CorsairSubscribeForEvents_Fn.isSome = true
      ∧ (SessionStateChangedHandler sdk4 (some { state := sdk4.CSS_Connected })
          (SessionStateChangedHandler sdk4 (some { state := sdk4.CSS_Connected })
            stateLoaded)).log
          = stateLoaded.log
              ++ [Call.CorsairSubscribeForEvents, Call.CorsairSubscribeForEvents] :=
  ⟨by decide,
    (SessionStateChangedHandler_subscribes_on_every_Connected sdk4 stateLoaded
      (by decide)).2.2.1⟩

/-- C6 (as stated, refuted): a session loaded from a library without
`CorsairUnsubscribeFromEvents`, connected and subscribed; `Disconnect` returns a boolean,
calls the vendor's disconnect without any unsubscribe, and the subscribed flag is still
set afterwards. -/
theorem Disconnect_leaves_subscribed_flag_set :
    stateSubscribedNoUnsubscribe.g_iCueModule = some 1
      ∧ stateSubscribedNoUnsubscribe.g_subscribed = true
      ∧ (Disconnect sdk4 (vendorOk 0) stateSubscribedNoUnsubscribe).2
          = JsResult.returned true
      ∧ (Disconnect sdk4 (vendorOk 0) stateSubscribedNoUnsubscribe).1.g_subscribed = true
      ∧ (Disconnect sdk4 (vendorOk 0) stateSubscribedNoUnsubscribe).1.log
          = stateSubscribedNoUnsubscribe.log ++ [Call.CorsairDisconnect] := by
  decide

/-- C6 (amended): `Disconnect` is total and never raises: from every state and for every
vendor outcome it returns a boolean, also when called twice in a row, and it never sets the
subscribed flag; when the module is loaded with `CorsairDisconnect` and
`CorsairUnsubscribeFromEvents` resolved, the flag is false afterwards and, if it was set on
entry, the vendor's unsubscribe is called immediately before the vendor's disconnect. -/
theorem Disconnect_total_and_unsubscribes_when_resolved (H : SdkHeader) (v v2 : Vendor)
    (s : State) :
    (∃ b, (Disconnect H v s).2 = JsResult.returned b)
      ∧ (∃ b, (Disconnect H v2 (Disconnect H v s).1).2 = JsResult.returned b)
      ∧ (s.g_subscribed = false → (Disconnect H v s).1.g_subscribed = false)
      ∧ (s.g_iCueModule.isSome = true → s.CorsairDisconnect_Fn.isSome = true →
          s.CorsairUnsubscribeFromEvents_Fn.isSome = true →
            (Disconnect H v s).1.g_subscribed = false
              ∧ (Disconnect H v s).1.log
                  = s.log
                    ++ (if s.g_subscribed = true then [Call.CorsairUnsubscribeFromEvents]
                        else [])
                    ++ [Call.CorsairDisconnect]
              ∧ (Disconnect H v s).2
                  = JsResult.returned (decide (v.CorsairDisconnect = H.CE_Success))
              ∧ (Disconnect H v2 (Disconnect H v s).1).1.g_subscribed = false
              ∧ (Disconnect H v2 (Disconnect H v s).1).1.log
                  = (Disconnect H v s).1.log ++ [Call.CorsairDisconnect]) := by
  have total : ∀ (w : Vendor) (t : State), ∃ b, (Disconnect H w t).2 = JsResult.returned b := by
    intro w t
    unfold Disconnect
    by_cases h : t.g_iCueModule.isNone = true ∨ t.CorsairDisconnect_Fn.isNone = true
    · exact ⟨false, by rw [if_pos h]⟩
    · exact ⟨decide (w.CorsairDisconnect = H.CE_Success), by rw [if_neg h]⟩
  refine ⟨total v s, total v2 _, ?_, ?_⟩
  · intro hsub
    unfold Disconnect
    by_cases h : s.g_iCueModule.isNone = true ∨ s.CorsairDisconnect_Fn.isNone = true
    · rw [if_pos h]; exact hsub
    · rw [if_neg h]; simp [hsub, State.record]
  · intro hm hd hu
    have hm2 : s.g_iCueModule.isNone = false := by
      cases hx : s.g_iCueModule <;> simp [hx] at hm ⊢
    have hd2 : s.CorsairDisconnect_Fn.isNone = false := by
      cases hx : s.CorsairDisconnect_Fn <;> simp [hx] at hd ⊢
    cases hsub : s.g_subscribed <;>
      simp [Disconnect, State.record, hm2, hd2, hu, hsub]

/-- Evaluation of the amended C6 on a fully resolved, connected and subscribed session. -/
theorem Disconnect_total_and_unsubscribes_when_resolved_witness :
    (SessionStateChangedHandler sdk4 (some { state := 6 }) stateLoaded).g_subscribed = true
      ∧ (Disconnect sdk4 vendorFailing
          (SessionStateChangedHandler sdk4 (some { state := 6 }) stateLoaded)).1.g_subscribed
          = false
      ∧ (Disconnect sdk4 vendorFailing
          (SessionStateChangedHandler sdk4 (some { state := 6 }) stateLoaded)).1.log
          = (SessionStateChangedHandler sdk4 (some { state := 6 }) stateLoaded).log
              ++ [Call.CorsairUnsubscribeFromEvents, Call.CorsairDisconnect] := by
  have h := (Disconnect_total_and_unsubscribes_when_resolved sdk4 vendorFailing (vendorOk 0)
    (SessionStateChangedHandler sdk4 (some { state := 6 }) stateLoaded)).2.2.2
    (by decide) (by decide) (by decide)
  refine ⟨by decide, h.1, ?_⟩
  rw [h.2.1]; decide

/-! ## Claims about device control -/

theorem toUnsignedChar_Uint32Value (n : Int) :
    toUnsignedChar (Uint32Value n) = (n % 256).toNat := by
  unfold toUnsignedChar Uint32Value
  norm_num
  omega

theorem toUnsignedChar_Uint32Value_in_range (n : Int) (h0 : 0 ≤ n) (h1 : n ≤ 255) :
    toUnsignedChar (Uint32Value n) = n.toNat := by
  rw [toUnsignedChar_Uint32Value]
  omega

theorem Uint32Value_in_range (n : Int) (h0 : 0 ≤ n) (h1 : n < 2 ^ 32) :
    Uint32Value n = n.toNat := by
  unfold Uint32Value
  norm_num at h1 ⊢
  omega

/-- C8 (as stated, refuted): with the library loaded, `SetKeyColor` with `r = 256` is not
rejected and sends `r = 0` to the vendor, and with `r = -1` it sends `r = 255`: the
component is neither refused nor clamped. -/
theorem SetKeyColor_wraps_out_of_range_component :
    (SetKeyColor sdk4 (vendorOk 0) 3 "kb" 1 256 0 0 stateLoaded).2 = JsResult.returned true
      ∧ (SetKeyColor sdk4 (vendorOk 0) 3 "kb" 1 256 0 0 stateLoaded).1.log
          = stateLoaded.log
              ++ [Call.CorsairSetLedColors "kb" 1 { id := 1, r := 0, g := 0, b := 0, a := 255 }]
      ∧ (SetKeyColor sdk4 (vendorOk 0) 3 "kb" 1 (-1) 0 0 stateLoaded).1.log
          = stateLoaded.log
              ++ [Call.CorsairSetLedColors "kb" 1
                    { id := 1, r := 255, g := 0, b := 0, a := 255 }] := by
  decide

/-- C8 (amended): with the library loaded and three arguments given, `SetKeyColor` sends
exactly one command to the vendor's `CorsairSetLedColors`, carrying the device id, the LED
id reduced modulo `2^32`, each colour component reduced modulo 256 (so 256 becomes 0 and
-1 becomes 255) and alpha 255, and returns whether the vendor reported success; for an LED
id in the `uint32` range and components inside `[0,255]` the command carries exactly the
given LED id, r, g, b and alpha 255. -/
theorem SetKeyColor_sends_components_modulo_256 (H : SdkHeader) (v : Vendor) (argc : Nat)
    (deviceId : String) (ledLuidArg rArg gArg bArg : Int) (s : State)
    (hargc : 3 ≤ argc) (hm : s.g_iCueModule.isSome = true)
    (hfn : s.CorsairSetLedColors_Fn.isSome = true) :
    (SetKeyColor H v argc deviceId ledLuidArg rArg gArg bArg s).1.log
        = s.log ++ [Call.CorsairSetLedColors deviceId 1
            { id := (ledLuidArg % 2 ^ 32).toNat, r := (rArg % 256).toNat,
              g := (gArg % 256).toNat, b := (bArg % 256).toNat, a := 255 }]
      ∧ (SetKeyColor H v argc deviceId ledLuidArg rArg gArg bArg s).2
          = JsResult.returned (decide (v.CorsairSetLedColors deviceId 1
              { id := (ledLuidArg % 2 ^ 32).toNat, r := (rArg % 256).toNat,
                g := (gArg % 256).toNat, b := (bArg % 256).toNat, a := 255 }
              = H.CE_Success))
      ∧ (0 ≤ ledLuidArg → ledLuidArg < 2 ^ 32 → 0 ≤ rArg → rArg ≤ 255 → 0 ≤ gArg →
          gArg ≤ 255 → 0 ≤ bArg → bArg ≤ 255 →
          (SetKeyColor H v argc deviceId ledLuidArg rArg gArg bArg s).1.log
            = s.log ++ [Call.CorsairSetLedColors deviceId 1
                { id := ledLuidArg.toNat, r := rArg.toNat, g := gArg.toNat,
                  b := bArg.toNat, a := 255 }]) := by
  have hargc2 : ¬ argc < 3 := by omega
  have hm2 : s.g_iCueModule.isNone = false := by
    cases hx : s.g_iCueModule <;> simp [hx] at hm ⊢
  have hfn2 : s.CorsairSetLedColors_Fn.isNone = false := by
    cases hx : s.CorsairSetLedColors_Fn <;> simp [hx] at hfn ⊢
  have hrun : SetKeyColor H v argc deviceId ledLuidArg rArg gArg bArg s
      = (s.record (Call.CorsairSetLedColors deviceId 1
            { id := (ledLuidArg % 2 ^ 32).toNat, r := (rArg % 256).toNat,
              g := (gArg % 256).toNat, b := (bArg % 256).toNat, a := 255 }),
          JsResult.returned (decide (v.CorsairSetLedColors deviceId 1
            { id := (ledLuidArg % 2 ^ 32).toNat, r := (rArg % 256).toNat,
              g := (gArg % 256).toNat, b := (bArg % 256).toNat, a := 255 }
            = H.CE_Success))) := by
    unfold SetKeyColor
    rw [if_neg hargc2, if_neg (by simp [hm2, hfn2])]
    simp only [toUnsignedChar_Uint32Value]
    rfl
  rw [hrun]
  refine ⟨rfl, rfl, ?_⟩
  intro hl0 hl1 hr0 hr1 hg0 hg1 hb0 hb1
  have e1 : (ledLuidArg % 2 ^ 32).toNat = ledLuidArg.toNat := by
    have := Uint32Value_in_range ledLuidArg hl0 hl1
    simpa [Uint32Value] using this
  have e2 : (rArg % 256).toNat = rArg.toNat := by omega
  have e3 : (gArg % 256).toNat = gArg.toNat := by omega
  have e4 : (bArg % 256).toNat = bArg.toNat := by omega
  simp only [State.record, e1, e2, e3, e4]

/-- Evaluation of the amended C8 on an in-range colour. -/
theorem SetKeyColor_sends_components_modulo_256_witness :
    (SetKeyColor sdk4 (vendorOk 0) 3 "kb" 65537 10 20 255 stateLoaded).1.log
      = stateLoaded.log
          ++ [Call.CorsairSetLedColors "kb" 1
                { id := 65537, r := 10, g := 20, b := 255, a := 255 }] := by
  have h := (SetKeyColor_sends_components_modulo_256 sdk4 (vendorOk 0) 3 "kb" 65537 10 20 255
    stateLoaded (by decide) (by decide) (by decide)).2.2
    (by decide) (by decide) (by decide) (by decide) (by decide) (by decide) (by decide)
    (by decide)
  rw [h]
  decide

/-- C9 (as stated, refuted): with no library loaded, `Disconnect` and `RequestControl`
return `false` and `GetKeyboards` returns an empty array; none of them raises an error. -/
theorem unloaded_operations_return_without_error :
    State.init.g_iCueModule = none
      ∧ (Disconnect sdk4 (vendorOk 0) State.init).2 = JsResult.returned false
      ∧ (RequestControl sdk4 (vendorOk 0) 1 "kb" State.init).2 = JsResult.returned false
      ∧ (GetKeyboards sdk4 (vendorOk 3) State.init).2 = { result := [], slotsRead := [] } := by
  decide

/-- C9 (amended): while no library is loaded, none of `Connect`, `Disconnect`,
`SetKeyColor`, `GetKeyboards`, `RequestControl` calls a vendor entry point or changes the
module state; `Connect` and `SetKeyColor` (given its three arguments) raise the not-loaded
error, `Disconnect` and `RequestControl` (given its argument) return `false`, and
`GetKeyboards` returns the empty sequence; with too few arguments `SetKeyColor` and
`RequestControl` raise a `TypeError` instead. -/
theorem unloaded_operations_do_nothing (H : SdkHeader) (v : Vendor) (s : State)
    (argc : Nat) (deviceId : String) (ledLuidArg rArg gArg bArg : Int)
    (hs : s.g_iCueModule = none) :
    Connect H v s
        = (s, JsResult.threw JsErrorKind.Error "SDK not loaded. Call loadSDK() first.")
      ∧ Disconnect H v s = (s, JsResult.returned false)
      ∧ SetKeyColor H v argc deviceId ledLuidArg rArg gArg bArg s
          = (s, if argc < 3 then
                  JsResult.threw JsErrorKind.TypeError "setKeyColor requires 3 arguments"
                else JsResult.threw JsErrorKind.Error "SDK not loaded or connected")
      ∧ GetKeyboards H v s = (s, { result := [], slotsRead := [] })
      ∧ RequestControl H v argc deviceId s
          = (s, if argc < 1 then
                  JsResult.threw JsErrorKind.TypeError "requestControl requires device ID"
                else JsResult.returned false) := by
  refine ⟨?_, ?_, ?_, ?_, ?_⟩
  · simp [Connect, hs]
  · simp [Disconnect, hs]
  · unfold SetKeyColor
    by_cases h : argc < 3 <;> simp [h, hs]
  · simp [GetKeyboards, hs]
  · unfold RequestControl
    by_cases h : argc < 1 <;> simp [h, hs]

/-- Evaluation of the amended C9 on the initial state. -/
theorem unloaded_operations_do_nothing_witness :
    State.init.g_iCueModule = none
      ∧ Connect sdk4 (vendorOk 0) State.init
          = (State.init,
              JsResult.threw JsErrorKind.Error "SDK not loaded. Call loadSDK() first.")
      ∧ Disconnect sdk4 (vendorOk 0) State.init = (State.init, JsResult.returned false) :=
  ⟨rfl,
    (unloaded_operations_do_nothing sdk4 (vendorOk 0) State.init 3 "kb" 1 0 0 0 rfl).1,
    (unloaded_operations_do_nothing sdk4 (vendorOk 0) State.init 3 "kb" 1 0 0 0 rfl).2.1⟩

/-- C10 (as stated, refuted): with the library loaded and the vendor reporting success
with a device count of 11, `GetKeyboards` returns 11 descriptors and reads `devices[10]`,
one element past its 10-element buffer. -/
theorem GetKeyboards_reads_past_buffer :
    (GetKeyboards sdk4 (vendorOk 11) stateLoaded).2.result.length = 11
      ∧ 10 ∈ (GetKeyboards sdk4 (vendorOk 11) stateLoaded).2.slotsRead := by
  decide

/-- C10 (amended): `GetKeyboards` passes a capacity of 10 to the vendor's listing entry
point; when the library or the entry point is missing it returns the empty sequence
without calling the vendor; when the vendor reports a non-success code it returns the empty
sequence and reads no slot; when the vendor reports success and a count of at most 10 it
returns exactly that many descriptors (none for a negative count), at most 10, copied from
slots `0 .. count-1`, reading only slots below 10. -/
theorem GetKeyboards_within_buffer_when_count_at_most_10 (H : SdkHeader) (v : Vendor)
    (s : State) :
    ((s.g_iCueModule = none ∨ s.CorsairGetDevices_Fn = none) →
        GetKeyboards H v s = (s, { result := [], slotsRead := [] }))
      ∧ (s.g_iCueModule.isSome = true → s.CorsairGetDevices_Fn.isSome = true →
          (GetKeyboards H v s).1.log = s.log ++ [Call.CorsairGetDevices H.CDT_Keyboard 10]
            ∧ ((v.CorsairGetDevices H.CDT_Keyboard 10).1 ≠ H.CE_Success →
                (GetKeyboards H v s).2 = { result := [], slotsRead := [] })
            ∧ ((v.CorsairGetDevices H.CDT_Keyboard 10).1 = H.CE_Success →
                (v.CorsairGetDevices H.CDT_Keyboard 10).2.2 ≤ 10 →
                  (GetKeyboards H v s).2.result.length
                      = (v.CorsairGetDevices H.CDT_Keyboard 10).2.2.toNat
                    ∧ (GetKeyboards H v s).2.result.length ≤ 10
                    ∧ (GetKeyboards H v s).2.slotsRead
                        = List.range (v.CorsairGetDevices H.CDT_Keyboard 10).2.2.toNat
                    ∧ (∀ i ∈ (GetKeyboards H v s).2.slotsRead, i < 10)
                    ∧ (GetKeyboards H v s).2.result
                        = (List.range (v.CorsairGetDevices H.CDT_Keyboard 10).2.2.toNat).map
                            (fun i => deviceObjOf
                              ((v.CorsairGetDevices H.CDT_Keyboard 10).2.1 i)))) := by
  refine ⟨?_, ?_⟩
  · intro h
    unfold GetKeyboards
    rcases h with h | h <;> simp [h]
  · intro hm hfn
    have hm2 : s.g_iCueModule.isNone = false := by
      cases hx : s.g_iCueModule <;> simp [hx] at hm ⊢
    have hfn2 : s.CorsairGetDevices_Fn.isNone = false := by
      cases hx : s.CorsairGetDevices_Fn <;> simp [hx] at hfn ⊢
    refine ⟨?_, ?_, ?_⟩
    · unfold GetKeyboards
      by_cases he : (v.CorsairGetDevices H.CDT_Keyboard 10).1 = H.CE_Success <;>
        simp [hm2, hfn2, he, State.record]
    · intro he
      simp [GetKeyboards, hm2, hfn2, he]
    · intro he hc
      have hn : (v.CorsairGetDevices H.CDT_Keyboard 10).2.2.toNat ≤ 10 := by omega
      simp only [GetKeyboards, hm2, hfn2, he, Bool.false_eq_true, or_self, if_false, ne_eq,
        not_true_eq_false, List.length_map, List.length_range, List.mem_range]
      refine ⟨trivial, hn, trivial, ?_, trivial⟩
      intro i hi
      omega

/-- Evaluation of the amended C10 with three devices reported. -/
theorem GetKeyboards_within_buffer_when_count_at_most_10_witness :
    (GetKeyboards sdk4 (vendorOk 3) stateLoaded).2.result.length = 3
      ∧ (GetKeyboards sdk4 (vendorOk 3) stateLoaded).2.slotsRead = [0, 1, 2]
      ∧ (GetKeyboards sdk4 vendorFailing stateLoaded).2 = { result := [], slotsRead := [] } := by
  have h := (GetKeyboards_within_buffer_when_count_at_most_10 sdk4 (vendorOk 3)
    stateLoaded).2 (by decide) (by decide)
  have h3 := h.2.2 (by decide) (by decide)
  have hf := ((GetKeyboards_within_buffer_when_count_at_most_10 sdk4 vendorFailing
    stateLoaded).2 (by decide) (by decide)).2.1 (by decide)
  refine ⟨?_, ?_, hf⟩
  · rw [h3.1]; decide
  · rw [h3.2.2.1]; decide

end Corsair
